import Mathlib

/-!
Shallow embedding of the Social_Media_Marketing_Bot repository, covering the
parts of the source that the verified claims are about:

* `src/utils/payment.py` — `PaymentManager.record_usage`,
  `_check_sufficient_balance`, `_is_covered_by_plan`, `_deduct_from_balance`,
  `_get_company_balance`, and the plan/rate tables.
* `src/utils/scheduler.py` — `AdScheduler.schedule_post`, `_add_to_schedule`,
  the job body defined inside `_add_to_schedule`, and `cancel_schedule`.
* `src/models/social_media_handler.py` — the hashtag-truncation logic of
  `post_to_twitter` and the result normalization of `post_ad`.

Modelling conventions:

* Money is in integer cents.  The source stores dollar amounts as Python
  floats (rates 0.50 / 0.25 / 0.10 / 0.40, test balance 100.0); scaling by
  100 makes every amount in the source an exact integer, so the arithmetic
  (`rate * quantity`, `balance - amount`, `max(0, ...)`, comparisons) is
  represented exactly.
* Timestamps are ISO-8601 strings, exactly as the source stores them, and are
  compared lexicographically on code points, exactly as Python's `>=` on
  `str` does (`doc_data.get("timestamp", "") >= current_month_start_str`).
  The comparison is implemented here on `String.data` so that it evaluates.
* Firestore collections become in-memory lists; a document write appends, a
  document update rewrites the matching entry in place.  The flag
  `persistOk` models whether store writes succeed: when it is `false`, every
  write raises and the corresponding `except` branch of the source runs.
  Reads are modelled as always succeeding.
* Values read from the environment at runtime (`datetime.datetime.now()`,
  `time.time()`, generated document ids, the `TEST_ACCOUNT` flag) are
  explicit parameters.
-/

/-- Lexicographic strict comparison of code-point lists, mirroring Python's
`<` on `str` (Python compares strings by code points, left to right). -/
def charsLt : List Char → List Char → Bool
  | [], [] => false
  | [], _ :: _ => true
  | _ :: _, [] => false
  | a :: as, b :: bs =>
    if a.val < b.val then true
    else if b.val < a.val then false
    else charsLt as bs

/-- Python's `a < b` on strings. -/
def strLt (a b : String) : Bool := charsLt a.data b.data

/-- Python's `a >= b` on strings, used by the source to compare ISO-8601
timestamps (`timestamp >= current_month_start_str`). -/
def strGe (a b : String) : Bool := ! strLt a b

/-- First value bound to a key in an association list; mirrors both a keyed
Firestore document read and Python's `dict.get`. -/
def assocFind {α : Type} : List (String × α) → String → Option α
  | [], _ => none
  | (k, v) :: rest, key => if k = key then some v else assocFind rest key

/-! ## Payment module (`src/utils/payment.py`) -/

/-- Per-action unit rates in cents, mirroring `self.rates` (post $0.50,
image_generation $0.25, analytics $0.10, scheduled_post $0.40) together with
the `self.rates.get(usage_type, 0.10)` default used at every call site. -/
def rateCents (usageType : String) : Int :=
  if usageType = "post" then 50
  else if usageType = "image_generation" then 25
  else if usageType = "analytics" then 10
  else if usageType = "scheduled_post" then 40
  else 10

/-- A value stored in the `self.plans` table: the table mixes ints, bools and
the strings "Unlimited" / "All". -/
inductive PlanVal
  | num (n : Nat)
  | flag (b : Bool)
  | strv (s : String)
deriving DecidableEq, Repr

/-- The static `self.plans` table of `PaymentManager.__init__`, restricted to
the keys `_is_covered_by_plan` can read plus the other allowance-like keys
(the `name`/`price` entries are never read by the embedded code). -/
def planTable : String → Option (List (String × PlanVal))
  | "free" => some [("monthly_posts", .num 10), ("platforms", .num 2),
      ("schedule", .flag false), ("analytics", .flag false),
      ("image_generation", .num 5), ("team_members", .num 1)]
  | "starter" => some [("monthly_posts", .num 50), ("platforms", .num 3),
      ("schedule", .flag true), ("analytics", .flag true),
      ("image_generation", .num 20), ("team_members", .num 2)]
  | "business" => some [("monthly_posts", .num 200), ("platforms", .num 5),
      ("schedule", .flag true), ("analytics", .flag true),
      ("image_generation", .num 100), ("team_members", .num 5)]
  | "enterprise" => some [("monthly_posts", .strv "Unlimited"),
      ("platforms", .strv "All"), ("schedule", .flag true),
      ("analytics", .flag true), ("image_generation", .strv "Unlimited"),
      ("team_members", .strv "Unlimited")]
  | _ => none

/-- `self.plans.get(plan, {})`: the callers in the source pass `plan=None`,
and `None` is not a key of the dict, so the lookup yields `{}`. -/
def planDetails : Option String → List (String × PlanVal)
  | none => []
  | some p => (planTable p).getD []

/-- `plan_details.get(key) == "Unlimited"`. -/
def isUnlimited (v : Option PlanVal) : Bool := decide (v = some (.strv "Unlimited"))

/-- Numeric view of `plan_details.get(key, 0)` as used on the right of
`current_usage + quantity <= ...`: a missing key defaults to `0`, an int is
itself, and a Python bool compares as `0`/`1`.  A non-"Unlimited" string
would raise `TypeError` in the comparison, which the enclosing `except`
turns into "not covered"; returning `0` here gives that same outcome for the
`quantity >= 1` calls the source makes (and no string other than
"Unlimited" occurs in the table anyway). -/
def limitVal : Option PlanVal → Nat
  | some (.num n) => n
  | some (.flag b) => if b then 1 else 0
  | some (.strv _) => 0
  | none => 0

/-- One document of the `usage` collection (`UsageLedgerEntry`).
`plan_covered` is `some true` only on the plan-covered path; the debit and
test-account paths write no `plan_covered` key, modelled as `none`. -/
structure UsageDoc where
  company_id : String
  type : String
  quantity : Nat
  amountCents : Int
  plan_covered : Option Bool
  timestamp : String
  status : String
deriving DecidableEq, Repr

/-- One document of the `transactions` collection. -/
structure Txn where
  company_id : String
  type : String
  amountCents : Int
  timestamp : String
  description : String
deriving DecidableEq, Repr

/-- The slice of the Firestore state the payment module touches: the
`balances`, `usage` and `transactions` collections. -/
structure PayState where
  balances : List (String × Int)
  usage : List UsageDoc
  transactions : List Txn
deriving DecidableEq, Repr

/-- Rewrite the balance document of `key` in place (Firestore
`balance_ref.update`); no-op when the document is absent. -/
def setBal : List (String × Int) → String → Int → List (String × Int)
  | [], _, _ => []
  | (k, v) :: rest, key, nv =>
    if k = key then (k, nv) :: rest else (k, v) :: setBal rest key nv

/-- The balance the module would report for a company: the stored value, or
`0.0` when no balance document exists yet. -/
def balanceOf (st : PayState) (cid : String) : Int :=
  (assocFind st.balances cid).getD 0

/-- The loop of `_is_covered_by_plan` that computes `current_usage`: over all
usage documents of the company, sum `quantity` of those whose `type` matches
and whose timestamp is at or after the start of the current calendar month
(string comparison of ISO timestamps). -/
def currentUsage (docs : List UsageDoc) (cid usageType monthStart : String) : Nat :=
  match docs with
  | [] => 0
  | d :: rest =>
    (if d.company_id = cid ∧ d.type = usageType ∧ strGe d.timestamp monthStart = true
      then d.quantity else 0) + currentUsage rest cid usageType monthStart

/-- `PaymentManager._is_covered_by_plan(company_id, plan, usage_type,
quantity)`.  `monthStart` is the ISO string of
`datetime.now().replace(day=1, hour=0, minute=0, second=0, microsecond=0)`;
`docs` is the `usage` collection.  Every caller in the source passes
`plan=None`. -/
def isCoveredByPlan (plan : Option String) (cid usageType : String)
    (quantity : Nat) (docs : List UsageDoc) (monthStart : String) : Bool :=
  if plan = some "free" then false
  else
    let pd := planDetails plan
    let cu := currentUsage docs cid usageType monthStart
    if usageType = "post" then
      if isUnlimited (assocFind pd "monthly_posts") then true
      else decide (cu + quantity ≤ limitVal (assocFind pd "monthly_posts"))
    else if usageType = "image_generation" then
      if isUnlimited (assocFind pd "image_generation") then true
      else decide (cu + quantity ≤ limitVal (assocFind pd "image_generation"))
    else if usageType = "analytics" then
      if isUnlimited (assocFind pd "analytics") then true
      else decide (cu + quantity ≤ limitVal (assocFind pd "analytics"))
    else if usageType = "scheduled_post" then
      if isUnlimited (assocFind pd "scheduled_posts") then true
      else decide (cu + quantity ≤ limitVal (assocFind pd "scheduled_posts"))
    else false

/-- `PaymentManager._get_company_balance`: the test company always reports a
fixed $100.00; otherwise read the balance document, creating an initial
zero-balance document when none exists (when that write fails, the `except`
branch reports balance `0.0` without writing). -/
def getCompanyBalance (persistOk : Bool) (cid : String) (st : PayState) :
    Int × PayState :=
  if cid = "test-company-id" then (10000, st)
  else
    match assocFind st.balances cid with
    | some b => (b, st)
    | none =>
      if persistOk then (0, { st with balances := st.balances ++ [(cid, 0)] })
      else (0, st)

/-- `PaymentManager._deduct_from_balance`: clamp the new balance at zero with
`max(0, balance - amount)`, update the balance document and append a debit
transaction.  A missing balance document makes `to_dict()` return `None` and
the subsequent attribute access raise, which the `except` turns into
`{"success": False}`; a failing write does the same. -/
def deductFromBalance (persistOk : Bool) (nowTs cid : String) (amount : Int)
    (st : PayState) : Bool × PayState :=
  match assocFind st.balances cid with
  | some b =>
    if persistOk then
      (true, { st with
        balances := setBal st.balances cid (max 0 (b - amount)),
        transactions := st.transactions ++
          [⟨cid, "debit", amount, nowTs, "Usage charge"⟩] })
    else (false, st)
  | none => (false, st)

/-- `PaymentManager._check_sufficient_balance`: test accounts always pass;
an operation covered by the plan passes; otherwise compare the stored
balance against `rate * quantity` (reading the balance may implicitly
create a zero-balance document, hence the returned state). -/
def checkSufficientBalance (testAccount persistOk : Bool) (cid usageType : String)
    (quantity : Nat) (monthStart : String) (st : PayState) : Bool × PayState :=
  if cid = "test-company-id" ∨ testAccount = true then (true, st)
  else if isCoveredByPlan none cid usageType quantity st.usage monthStart then (true, st)
  else
    (decide (rateCents usageType * (quantity : Int) ≤ (getCompanyBalance persistOk cid st).1),
     (getCompanyBalance persistOk cid st).2)

/-- The dict returned by `record_usage` (`success`, `message`, optional
`id`); the bare `{"success": False}` of `_deduct_from_balance` is modelled
with an empty message. -/
structure RUResult where
  success : Bool
  message : String
  id : Option String
deriving DecidableEq, Repr

/-- The debit tail of `record_usage` (its "not covered by plan" branch):
deduct from the balance, and when the deduction succeeds append the usage
document; a failed deduction is returned as-is (the bare
`{"success": False}` dict, empty message here). -/
def recordUsageDebit (persistOk : Bool) (cid usageType : String) (quantity : Nat)
    (nowTs freshId : String) (st1 : PayState) : RUResult × PayState :=
  if (deductFromBalance persistOk nowTs cid (rateCents usageType * (quantity : Int)) st1).1 = false then
    (⟨false, "", none⟩,
     (deductFromBalance persistOk nowTs cid (rateCents usageType * (quantity : Int)) st1).2)
  else
    (⟨true, "Usage recorded and amount deducted from balance", some freshId⟩,
     { (deductFromBalance persistOk nowTs cid (rateCents usageType * (quantity : Int)) st1).2 with
        usage := (deductFromBalance persistOk nowTs cid (rateCents usageType * (quantity : Int)) st1).2.usage ++
          [⟨cid, usageType, quantity, rateCents usageType * (quantity : Int), none, nowTs, "completed"⟩] })

/-- The part of `record_usage` after the `_check_sufficient_balance` gate
(`csb` is that gate's result): bail out with "Insufficient balance" when the
gate failed; otherwise either record a plan-covered entry (no balance
mutation) or fall through to the debit tail. -/
def recordUsageAfterCheck (persistOk : Bool) (cid usageType : String)
    (quantity : Nat) (nowTs monthStart freshId : String) (csb : Bool × PayState) :
    RUResult × PayState :=
  if csb.1 = false then (⟨false, "Insufficient balance", none⟩, csb.2)
  else if isCoveredByPlan none cid usageType quantity csb.2.usage monthStart then
    if persistOk then
      (⟨true, "Usage recorded (covered by plan)", some freshId⟩,
       { csb.2 with usage := csb.2.usage ++
          [⟨cid, usageType, quantity, rateCents usageType * (quantity : Int),
            some true, nowTs, "completed"⟩] })
    else (⟨false, "Error recording usage", none⟩, csb.2)
  else recordUsageDebit persistOk cid usageType quantity nowTs freshId csb.2

/-- `PaymentManager.record_usage(company_id, usage_type, quantity)`.
`testAccount` is the `TEST_ACCOUNT` environment flag read in `__init__`;
`nowTs` is `datetime.datetime.now().isoformat()`; `monthStart` is the ISO
string of the first instant of the current calendar month; `freshId` is the
id Firestore generates for a new `usage` document.  Test accounts (the
hard-coded test company id or the environment flag) record a zero-amount
entry and never touch the balance, reporting success even when the write
fails. -/
def recordUsage (testAccount persistOk : Bool) (cid usageType : String)
    (quantity : Nat) (nowTs monthStart freshId : String) (st : PayState) :
    RUResult × PayState :=
  if cid = "test-company-id" ∨ testAccount = true then
    if persistOk then
      (⟨true, "Test account usage recorded (no charge)", some freshId⟩,
       { st with usage := st.usage ++
          [⟨cid, usageType, quantity, 0, none, nowTs, "test_account"⟩] })
    else
      (⟨true, "Test account usage noted but error recording", none⟩, st)
  else
    recordUsageAfterCheck persistOk cid usageType quantity nowTs monthStart freshId
      (checkSufficientBalance testAccount persistOk cid usageType quantity monthStart st)

/-! ## Scheduler module (`src/utils/scheduler.py`) -/

/-- The `schedule_time` string of `schedule_post`, in parsed form: the source
branches on `schedule_time == "now"`, `== "daily"`,
`.startswith("at:")` and `.startswith("date:")` (the latter parsed with
`strptime("%Y-%m-%d %H:%M")`); `target` is that parsed instant in epoch
seconds. -/
inductive SchedSpec
  | now
  | daily
  | atTime (t : String)
  | date (target : Int)
deriving DecidableEq, Repr

/-- One entry of `self.schedules` as built by `schedule_post` and mutated by
the job body. -/
structure ScheduleEntry where
  id : String
  product_id : String
  platform : String
  format_type : String
  schedule_time : SchedSpec
  recurrence : Option String
  created_at : String
  status : String
  last_run : Option String
  last_post_id : Option String
  last_error : Option String
deriving DecidableEq, Repr

/-- Scheduler state: the persisted `self.schedules` dict, the jobs registered
with the `schedule` library's timer (`jobs` lists the schedule id once per
`schedule.every()...do(job)` registration), and a log of every invocation of
`create_post` (which attempts content generation and a platform publish). -/
structure SchedState where
  schedules : List (String × ScheduleEntry)
  jobs : List String
  published : List String
deriving DecidableEq, Repr

/-- The recurrence tail of `_add_to_schedule`: for a truthy recurrence other
than "once", a second job is registered for "daily" and "weekly"
(the "monthly" branch is `pass`). -/
def registerRecurrence (entry : ScheduleEntry) (st : SchedState) : SchedState :=
  match entry.recurrence with
  | none => st
  | some r =>
    if r = "" ∨ r = "once" then st
    else if r = "daily" ∨ r = "weekly" then { st with jobs := st.jobs ++ [entry.id] }
    else st

/-- `AdScheduler._add_to_schedule`: register a timer job according to the
schedule spec.  For a `date:` spec whose target is not in the future
(`seconds_until <= 0`) the function logs a warning and returns early, so no
job is registered at all (the recurrence tail is skipped too). -/
def addToSchedule (nowTime : Int) (entry : ScheduleEntry) (st : SchedState) :
    SchedState :=
  match entry.schedule_time with
  | .daily => registerRecurrence entry { st with jobs := st.jobs ++ [entry.id] }
  | .atTime _ => registerRecurrence entry { st with jobs := st.jobs ++ [entry.id] }
  | .date target =>
    if target - nowTime ≤ 0 then st
    else registerRecurrence entry { st with jobs := st.jobs ++ [entry.id] }
  | .now => registerRecurrence entry st

/-- The normalized result of `create_post` / `post_ad` as consumed by the
scheduler. -/
structure PostResult where
  success : Bool
  post_id : Option String
  error : Option String
deriving DecidableEq, Repr

/-- `AdScheduler.schedule_post(product_id, platform, schedule_time,
format_type, recurrence)`.  `productExists` is the result of
`product_manager.get_product`; `platforms` is `self.config.platforms`;
`unixTime` is `int(time.time())` used in the generated id; `nowTime` is
`datetime.datetime.now()` in epoch seconds; `postNow` is the result
`create_post` would return on the synchronous "now" path. -/
def schedulePost (productExists : Bool) (platforms : List String)
    (product_id platform format_type : String) (spec : SchedSpec)
    (recurrence : Option String) (createdAt : String) (unixTime nowTime : Int)
    (postNow : PostResult) (st : SchedState) : String × SchedState :=
  if productExists = false then ("Product not found: " ++ product_id, st)
  else if platforms.contains platform = false then
    ("Platform not configured: " ++ platform, st)
  else if spec = .now then
    if postNow.success then
      ("Posted successfully, post_id: " ++ (postNow.post_id.getD ""),
       { st with published := st.published ++ [product_id] })
    else
      ("Failed to post: " ++ (postNow.error.getD "Unknown error"),
       { st with published := st.published ++ [product_id] })
  else
    ("SCH_" ++ toString (st.schedules.length + 1) ++ "_" ++ toString unixTime,
     addToSchedule nowTime
       ⟨"SCH_" ++ toString (st.schedules.length + 1) ++ "_" ++ toString unixTime,
        product_id, platform, format_type, spec, recurrence, createdAt,
        "scheduled", none, none, none⟩
       { st with schedules := st.schedules ++
          [("SCH_" ++ toString (st.schedules.length + 1) ++ "_" ++ toString unixTime,
            ⟨"SCH_" ++ toString (st.schedules.length + 1) ++ "_" ++ toString unixTime,
             product_id, platform, format_type, spec, recurrence, createdAt,
             "scheduled", none, none, none⟩)] })

/-- In-place mutation of the entry bound to `sid` in the `self.schedules`
dict (`self.schedules[schedule_id][...] = ...`). -/
def updateEntry (sid : String) (g : ScheduleEntry → ScheduleEntry) :
    List (String × ScheduleEntry) → List (String × ScheduleEntry)
  | [] => []
  | (k, e) :: rest =>
    (if k = sid then (k, g e) else (k, e)) :: updateEntry sid g rest

/-- `self.schedules[schedule_id]["status"] = ...`: rewrite the status of the
entry bound to `sid`. -/
def setSchedStatus (l : List (String × ScheduleEntry)) (sid status : String) :
    List (String × ScheduleEntry) :=
  updateEntry sid (fun e => { e with status := status }) l

/-- `AdScheduler.cancel_schedule(schedule_id)`: unknown ids return `False`;
otherwise the entry's status is set to "cancelled" and the method returns
`True`.  The source notes it cannot deregister the timer job, and the timer
registry is indeed untouched. -/
def cancelSchedule (sid : String) (st : SchedState) : Bool × SchedState :=
  match assocFind st.schedules sid with
  | none => (false, st)
  | some _ => (true, { st with schedules := setSchedStatus st.schedules sid "cancelled" })

/-- The entry mutation of the job body's success branch. -/
def jobSuccessUpdate (nowTs : String) (pid : Option String)
    (e : ScheduleEntry) : ScheduleEntry :=
  { e with last_run := some nowTs, last_post_id := pid, status := "completed" }

/-- The entry mutation of the job body's failure branch. -/
def jobFailureUpdate (err : String) (e : ScheduleEntry) : ScheduleEntry :=
  { e with last_error := some err, status := "failed" }

/-- The job body `job()` defined inside `_add_to_schedule`, run when the
timer fires: it calls `create_post` unconditionally (there is no check of
the entry's status), then overwrites the entry's fields according to the
post result.  `postResult` is the value `create_post` returns; `nowTs` is
`datetime.datetime.now().isoformat()`. -/
def runJob (sid : String) (postResult : PostResult) (nowTs : String)
    (st : SchedState) : SchedState :=
  if postResult.success then
    { st with published := st.published ++ [sid],
              schedules := updateEntry sid
                (jobSuccessUpdate nowTs postResult.post_id) st.schedules }
  else
    { st with published := st.published ++ [sid],
              schedules := updateEntry sid
                (jobFailureUpdate (postResult.error.getD "Unknown error")) st.schedules }

/-- Status of the entry bound to `sid`, if any. -/
def schedStatusOf (st : SchedState) (sid : String) : Option String :=
  (assocFind st.schedules sid).map (·.status)

/-! ## Social media handler (`src/models/social_media_handler.py`) -/

/-- Python's `" ".join(...)` (resp. `"\n"`-style joins): concatenate with the
separator between consecutive elements. -/
def sjoin (sep : String) : List String → String
  | [] => ""
  | [t] => t
  | t :: u :: ts => t ++ sep ++ sjoin sep (u :: ts)

/-- The greedy truncation loop of `post_to_twitter`: walk the hashtag list in
order, appending a tag while `current_length + len(tag) + 1` stays within
`available_chars`, and stop at the first tag that does not fit. -/
def greedyTags (avail : Int) : Nat → List String → List String
  | _, [] => []
  | cur, t :: ts =>
    if (cur : Int) + t.length + 1 ≤ avail then
      t :: greedyTags avail (cur + t.length + 1) ts
    else []

/-- The text-assembly part of `SocialMediaHandler.post_to_twitter`: append
the full hashtag set after a newline when everything fits in 280 characters,
otherwise append only the greedy whole-tag selection that fits in
`280 - len(text) - 1` characters (or nothing when no tag fits). -/
def postToTwitterText (copy : String) (hashtags : List String) : String :=
  match hashtags with
  | [] => copy
  | _ :: _ =>
    if copy.length + (sjoin " " hashtags).length + 1 ≤ 280 then
      copy ++ "\n" ++ sjoin " " hashtags
    else
      match greedyTags (280 - (copy.length : Int) - 1) 0 hashtags with
      | [] => copy
      | t :: ts => copy ++ "\n" ++ sjoin " " (t :: ts)

/-- The dict `post_ad` builds and returns (`success`, `post_id`, `platforms`
omitted as it is never written, `errors` kept, and the `error` key that is
added only on failure paths). -/
structure AdResult where
  success : Bool
  post_id : Option String
  errors : List String
  error : Option String
deriving DecidableEq, Repr

/-- Python truthiness of the `post_id` returned by a `post_to_<platform>`
method: `None` and the empty string are falsy. -/
def pidTruthy : Option String → Bool
  | none => false
  | some s => decide (s ≠ "")

/-- `SocialMediaHandler.post_ad(ad_content)`.  The attempt to publish is a
single collaborator interaction, modelled by `vendor`: `.error e` is an
exception reaching `post_ad`'s own `try` (caught and put in `error`), and
`.ok pid` is the id returned by the platform method — `none` when that
method's internal `except` swallowed a vendor exception and returned `None`.
The embedding is a total function: no exception escapes `post_ad`. -/
def postAd (configured : List String) (platform : String)
    (vendor : Except String (Option String)) : AdResult :=
  if platform ∈ configured then
    match vendor with
    | .error e => ⟨false, none, [], some e⟩
    | .ok pid =>
      if pidTruthy pid then ⟨true, pid, [], none⟩
      else ⟨false, none, [], some ("Failed to post to " ++ platform)⟩
  else ⟨false, none, [], some ("Platform " ++ platform ++ " not configured")⟩

/-! ## Concrete states used by the closed claim theorems -/

/-- A plan-covered post ledger entry of the current month (October 2026). -/
def starterDoc : UsageDoc :=
  ⟨"acme", "post", 1, 50, some true, "2026-10-05T12:00:00", "completed"⟩

/-- A tenant on the `starter` plan with 49 posts already recorded this month
and a $10.00 prepaid balance. -/
def starterState : PayState :=
  ⟨[("acme", 1000)], List.replicate 49 starterDoc, []⟩

/-- A one-shot schedule entry in the `scheduled` state. -/
def schedEntryEx : ScheduleEntry :=
  ⟨"SCH_1_100", "prod1", "twitter", "image", .atTime "09:00", some "once",
    "2026-10-01T00:00:00", "scheduled", none, none, none⟩

/-- A scheduler state holding `schedEntryEx` with its timer job registered. -/
def schedStateEx : SchedState :=
  ⟨[("SCH_1_100", schedEntryEx)], ["SCH_1_100"], []⟩

/-! ## Helper lemmas -/

theorem assocFind_append_of_none {α : Type} (l l' : List (String × α)) (k : String)
    (h : assocFind l k = none) : assocFind (l ++ l') k = assocFind l' k := by
  induction l with
  | nil => rfl
  | cons p rest ih =>
    obtain ⟨pk, pv⟩ := p
    by_cases hk : pk = k
    · simp [assocFind, hk] at h
    · simp only [List.cons_append, assocFind, if_neg hk] at h ⊢
      exact ih h

theorem assocFind_setBal_self (l : List (String × Int)) (k : String) (b v : Int)
    (h : assocFind l k = some b) : assocFind (setBal l k v) k = some v := by
  induction l with
  | nil => simp [assocFind] at h
  | cons p rest ih =>
    obtain ⟨pk, pv⟩ := p
    by_cases hk : pk = k
    · simp [setBal, assocFind, hk]
    · simp only [assocFind, if_neg hk] at h
      simp only [setBal, if_neg hk, assocFind]
      exact ih h

theorem mem_setBal {l : List (String × Int)} {k : String} {v : Int}
    {p : String × Int} (h : p ∈ setBal l k v) : p.2 = v ∨ p ∈ l := by
  induction l with
  | nil => simp [setBal] at h
  | cons q rest ih =>
    obtain ⟨qk, qv⟩ := q
    by_cases hk : qk = k
    · simp only [setBal, if_pos hk] at h
      rcases List.mem_cons.mp h with h1 | h1
      · exact Or.inl (by simp [h1])
      · exact Or.inr (List.mem_cons_of_mem _ h1)
    · simp only [setBal, if_neg hk] at h
      rcases List.mem_cons.mp h with h1 | h1
      · exact Or.inr (by simp [h1])
      · rcases ih h1 with h2 | h2
        · exact Or.inl h2
        · exact Or.inr (List.mem_cons_of_mem _ h2)

theorem updateEntry_cons (sid : String) (g : ScheduleEntry → ScheduleEntry)
    (k : String) (e : ScheduleEntry) (rest : List (String × ScheduleEntry)) :
    updateEntry sid g ((k, e) :: rest)
      = (if k = sid then (k, g e) else (k, e)) :: updateEntry sid g rest := rfl

theorem assocFind_updateEntry (l : List (String × ScheduleEntry)) (sid : String)
    (g : ScheduleEntry → ScheduleEntry) :
    assocFind (updateEntry sid g l) sid = (assocFind l sid).map g := by
  induction l with
  | nil => rfl
  | cons p rest ih =>
    obtain ⟨pk, pv⟩ := p
    rw [updateEntry_cons]
    by_cases hk : pk = sid
    · rw [if_pos hk]
      subst hk
      simp [assocFind]
    · rw [if_neg hk]
      simp only [assocFind, if_neg hk]
      exact ih

/-! ## Claim theorems: content assembly and platform adapter -/

theorem sjoin_cons_of_ne_nil (t : String) (r : List String) (h : r ≠ []) :
    sjoin " " (t :: r) = t ++ " " ++ sjoin " " r := by
  cases r with
  | nil => exact absurd rfl h
  | cons u ts => rfl

theorem greedyTags_bound (avail : Int) (tags : List String) :
    ∀ cur : Nat, greedyTags avail cur tags = [] ∨
      ((sjoin " " (greedyTags avail cur tags)).length : Int) + cur + 1 ≤ avail := by
  induction tags with
  | nil => intro cur; exact Or.inl rfl
  | cons t ts ih =>
    intro cur
    by_cases hfit : (cur : Int) + t.length + 1 ≤ avail
    · rw [greedyTags, if_pos hfit]
      refine Or.inr ?_
      rcases hrec : greedyTags avail (cur + t.length + 1) ts with _ | ⟨g, gs⟩
      · have hs : sjoin " " [t] = t := rfl
        rw [hs]
        omega
      · rcases ih (cur + t.length + 1) with hb | hb
        · rw [hrec] at hb
          exact absurd hb (List.cons_ne_nil g gs)
        · rw [hrec] at hb
          have hs : sjoin " " (t :: g :: gs) = t ++ " " ++ sjoin " " (g :: gs) := rfl
          rw [hs, String.length_append, String.length_append]
          have hsp : (" " : String).length = 1 := rfl
          rw [hsp]
          push_cast at hb ⊢
          omega
    · rw [greedyTags, if_neg hfit]
      exact Or.inl rfl

/-- C6: for every copy string of length at most 280 and every non-empty
hashtag list, the Twitter/X text assembled by `post_to_twitter` — copy plus
appended hashtags — has length at most 280: the full set is appended when
copy, separator and all hashtags fit, otherwise whole hashtags are greedily
appended only while they fit. -/
theorem twitter_text_within_280 (copy : String) (hashtags : List String)
    (hcopy : copy.length ≤ 280) (hne : hashtags ≠ []) :
    (postToTwitterText copy hashtags).length ≤ 280 := by
  cases hashtags with
  | nil => exact absurd rfl hne
  | cons t0 ts0 =>
    rw [postToTwitterText]
    by_cases hall : copy.length + (sjoin " " (t0 :: ts0)).length + 1 ≤ 280
    · rw [if_pos hall]
      rw [String.length_append, String.length_append]
      have hnl : ("\n" : String).length = 1 := rfl
      rw [hnl]
      omega
    · rw [if_neg hall]
      rcases hg : greedyTags (280 - (copy.length : Int) - 1) 0 (t0 :: ts0) with _ | ⟨g, gs⟩
      · exact hcopy
      · rcases greedyTags_bound (280 - (copy.length : Int) - 1) (t0 :: ts0) 0 with hb | hb
        · rw [hg] at hb
          exact absurd hb (by simp)
        · rw [hg] at hb
          rw [String.length_append, String.length_append]
          have hnl : ("\n" : String).length = 1 := rfl
          rw [hnl]
          push_cast at hb
          omega

/-- C6 witness: a concrete copy and hashtag set within the bound. -/
theorem twitter_text_within_280_witness :
    (postToTwitterText "Check out our new product!" ["#launch", "#new"]).length ≤ 280 :=
  twitter_text_within_280 "Check out our new product!" ["#launch", "#new"]
    (by decide) (by decide)

/-- C7: the eligibility check of `_is_covered_by_plan` counts only usage of
the same company and action type whose timestamp is at or after the first
instant of the current calendar month, so when every previously recorded
matching entry is strictly before that instant — as on the 1st of a month at
00:00:00 — the counted prior usage is zero. -/
theorem month_to_date_usage_resets (docs : List UsageDoc)
    (cid usageType monthStart : String)
    (h : ∀ d ∈ docs, d.company_id = cid → d.type = usageType →
      strGe d.timestamp monthStart = false) :
    currentUsage docs cid usageType monthStart = 0 := by
  induction docs with
  | nil => rfl
  | cons d rest ih =>
    rw [currentUsage]
    have hrest : currentUsage rest cid usageType monthStart = 0 :=
      ih fun e he => h e (List.mem_cons_of_mem _ he)
    rw [hrest]
    by_cases hc : d.company_id = cid ∧ d.type = usageType ∧ strGe d.timestamp monthStart = true
    · have := h d (List.mem_cons_self _ _) hc.1 hc.2.1
      rw [hc.2.2] at this
      cases this
    · rw [if_neg hc]

/-- C7 witness: one September entry and one mismatching-type entry are both
invisible to an October-month check. -/
theorem month_to_date_usage_resets_witness :
    currentUsage
      [⟨"acme", "post", 3, 150, none, "2026-09-28T10:00:00", "completed"⟩,
       ⟨"acme", "image_generation", 2, 50, none, "2026-10-02T10:00:00", "completed"⟩]
      "acme" "post" "2026-10-01T00:00:00" = 0 :=
  month_to_date_usage_resets _ "acme" "post" "2026-10-01T00:00:00" (by decide)

/-- C9: `post_ad` never raises past its own boundary (the embedding is a
total function of the vendor outcome, exceptions included); every failure
carries a non-null error message, every success carries a post identifier,
and a configured platform returning a truthy id yields exactly
`success=true` with that id. -/
theorem post_ad_normalizes_results (configured : List String) (platform : String)
    (vendor : Except String (Option String)) :
    ((postAd configured platform vendor).success = true →
      (postAd configured platform vendor).post_id ≠ none ∧
      (postAd configured platform vendor).error = none)
    ∧ ((postAd configured platform vendor).success = false →
      (postAd configured platform vendor).error ≠ none)
    ∧ (∀ p : String, vendor = .ok (some p) → p ≠ "" → platform ∈ configured →
      postAd configured platform vendor = ⟨true, some p, [], none⟩) := by
  by_cases hcont : platform ∈ configured
  · rcases vendor with e | pid
    · refine ⟨?_, ?_, ?_⟩
      · intro hs
        simp [postAd, hcont] at hs
      · intro _
        simp [postAd, hcont]
      · intro p hv
        cases hv
    · rcases hpt : pidTruthy pid with _ | _
      · refine ⟨?_, ?_, ?_⟩
        · intro hs
          simp [postAd, hcont, hpt] at hs
        · intro _
          simp [postAd, hcont, hpt]
        · intro p hv hp _
          cases hv
          simp [pidTruthy, hp] at hpt
      · refine ⟨?_, ?_, ?_⟩
        · intro _
          cases pid with
          | none => simp [pidTruthy] at hpt
          | some s => simp [postAd, hcont, hpt]
        · intro hs
          simp [postAd, hcont, hpt] at hs
        · intro p hv hp _
          cases hv
          simp [postAd, hcont, hpt]
  · refine ⟨?_, ?_, ?_⟩
    · intro hs
      simp [postAd, hcont] at hs
    · intro _
      simp [postAd, hcont]
    · intro p _ _ hc
      exact absurd hc hcont

/-- C9 witness: a swallowed vendor exception, an exception reaching
`post_ad`, and a successful publish, all normalized. -/
theorem post_ad_normalizes_results_witness :
    ((postAd ["twitter"] "twitter" (.ok none)).error ≠ none)
    ∧ ((postAd ["twitter"] "twitter" (.error "rate limited")).error ≠ none)
    ∧ postAd ["twitter"] "twitter" (.ok (some "tw42")) = ⟨true, some "tw42", [], none⟩ :=
  ⟨(post_ad_normalizes_results ["twitter"] "twitter" (.ok none)).2.1 (by decide),
   (post_ad_normalizes_results ["twitter"] "twitter" (.error "rate limited")).2.1 (by decide),
   (post_ad_normalizes_results ["twitter"] "twitter" (.ok (some "tw42"))).2.2 "tw42"
     rfl (by decide) (by simp)⟩

/-! ## Claim theorems: usage ledger and balances -/

theorem getCompanyBalance_usage (pOk : Bool) (cid : String) (st : PayState) :
    (getCompanyBalance pOk cid st).2.usage = st.usage := by
  unfold getCompanyBalance
  split
  · rfl
  · split
    · rfl
    · split <;> rfl

theorem getCompanyBalance_transactions (pOk : Bool) (cid : String) (st : PayState) :
    (getCompanyBalance pOk cid st).2.transactions = st.transactions := by
  unfold getCompanyBalance
  split
  · rfl
  · split
    · rfl
    · split <;> rfl

theorem getCompanyBalance_fst (pOk : Bool) (cid : String) (st : PayState)
    (h : cid ≠ "test-company-id") :
    (getCompanyBalance pOk cid st).1 = balanceOf st cid := by
  unfold getCompanyBalance
  rw [if_neg h]
  split
  · next b heq =>
    unfold balanceOf
    rw [heq]
    rfl
  · next heq =>
    unfold balanceOf
    rw [heq]
    split <;> rfl

theorem getCompanyBalance_balanceOf (pOk : Bool) (cid : String) (st : PayState)
    (h : cid ≠ "test-company-id") :
    balanceOf (getCompanyBalance pOk cid st).2 cid = balanceOf st cid := by
  unfold getCompanyBalance
  rw [if_neg h]
  split
  · rfl
  · next heq =>
    split
    · simp [balanceOf, assocFind_append_of_none _ _ _ heq, heq, assocFind]
    · rfl

theorem getCompanyBalance_nonneg (pOk : Bool) (cid : String) (st : PayState)
    (h : ∀ p ∈ st.balances, 0 ≤ p.2) :
    ∀ p ∈ (getCompanyBalance pOk cid st).2.balances, 0 ≤ p.2 := by
  unfold getCompanyBalance
  split
  · exact h
  · split
    · exact h
    · split
      · intro p hp
        rcases List.mem_append.mp hp with hp | hp
        · exact h p hp
        · rw [List.mem_singleton.mp hp]
      · exact h

theorem deductFromBalance_usage (pOk : Bool) (nowTs cid : String) (amount : Int)
    (st : PayState) :
    (deductFromBalance pOk nowTs cid amount st).2.usage = st.usage := by
  unfold deductFromBalance
  split
  · split <;> rfl
  · rfl

theorem deductFromBalance_nonneg (pOk : Bool) (nowTs cid : String) (amount : Int)
    (st : PayState) (h : ∀ p ∈ st.balances, 0 ≤ p.2) :
    ∀ p ∈ (deductFromBalance pOk nowTs cid amount st).2.balances, 0 ≤ p.2 := by
  unfold deductFromBalance
  split
  · split
    · intro p hp
      rcases mem_setBal hp with hp | hp
      · rw [hp]
        exact le_max_left 0 _
      · exact h p hp
    · exact h
  · exact h

theorem checkSufficientBalance_usage (tA pOk : Bool) (cid ty : String) (q : Nat)
    (ms : String) (st : PayState) :
    (checkSufficientBalance tA pOk cid ty q ms st).2.usage = st.usage := by
  unfold checkSufficientBalance
  split
  · rfl
  · split
    · rfl
    · exact getCompanyBalance_usage pOk cid st

theorem checkSufficientBalance_nonneg (tA pOk : Bool) (cid ty : String) (q : Nat)
    (ms : String) (st : PayState) (h : ∀ p ∈ st.balances, 0 ≤ p.2) :
    ∀ p ∈ (checkSufficientBalance tA pOk cid ty q ms st).2.balances, 0 ≤ p.2 := by
  unfold checkSufficientBalance
  split
  · exact h
  · split
    · exact h
    · exact getCompanyBalance_nonneg pOk cid st h

theorem recordUsageDebit_nonneg (pOk : Bool) (cid ty : String) (q : Nat)
    (nowTs fid : String) (st1 : PayState) (h : ∀ p ∈ st1.balances, 0 ≤ p.2) :
    ∀ p ∈ (recordUsageDebit pOk cid ty q nowTs fid st1).2.balances, 0 ≤ p.2 := by
  unfold recordUsageDebit
  split
  · exact deductFromBalance_nonneg pOk nowTs cid _ st1 h
  · exact deductFromBalance_nonneg pOk nowTs cid _ st1 h

theorem recordUsageAfterCheck_nonneg (pOk : Bool) (cid ty : String) (q : Nat)
    (nowTs ms fid : String) (csb : Bool × PayState)
    (h : ∀ p ∈ csb.2.balances, 0 ≤ p.2) :
    ∀ p ∈ (recordUsageAfterCheck pOk cid ty q nowTs ms fid csb).2.balances, 0 ≤ p.2 := by
  unfold recordUsageAfterCheck
  split
  · exact h
  · split
    · split
      · exact h
      · exact h
    · exact recordUsageDebit_nonneg pOk cid ty q nowTs fid csb.2 h

/-- C2: `record_usage` never drives a stored balance below zero — a state
with only non-negative balances still has only non-negative balances after
any call — and the debit path computes the new balance as
`max(0, old - amount)`, the zero-floor clamp of `_deduct_from_balance`. -/
theorem record_usage_balance_never_negative (tA pOk : Bool) (cid ty : String)
    (q : Nat) (nowTs ms fid : String) (st : PayState)
    (h : ∀ p ∈ st.balances, 0 ≤ p.2) :
    (∀ p ∈ (recordUsage tA pOk cid ty q nowTs ms fid st).2.balances, 0 ≤ p.2)
    ∧ (∀ b : Int, assocFind st.balances cid = some b →
        assocFind (deductFromBalance true nowTs cid (rateCents ty * (q : Int)) st).2.balances cid
          = some (max 0 (b - rateCents ty * (q : Int)))) := by
  constructor
  · unfold recordUsage
    split
    · split
      · exact h
      · exact h
    · exact recordUsageAfterCheck_nonneg pOk cid ty q nowTs ms fid _
        (checkSufficientBalance_nonneg tA pOk cid ty q ms st h)
  · intro b hb
    unfold deductFromBalance
    rw [hb]
    simp only [if_pos rfl]
    exact assocFind_setBal_self st.balances cid b _ hb

/-- C2 witness: a tenant with a $3.00 balance charged a $5.00 scheduled-post
batch is clamped to zero, not driven negative. -/
theorem record_usage_balance_never_negative_witness :
    (∀ p ∈ (recordUsage false true "acme" "scheduled_post" 10 "2026-10-12T09:00:00"
        "2026-10-01T00:00:00" "u1" ⟨[("acme", 300)], [], []⟩).2.balances, 0 ≤ p.2)
    ∧ (∀ b : Int, assocFind ([("acme", 300)] : List (String × Int)) "acme" = some b →
        assocFind (deductFromBalance true "2026-10-12T09:00:00" "acme"
          (rateCents "scheduled_post" * (10 : Int))
          ⟨[("acme", 300)], [], []⟩).2.balances "acme"
          = some (max 0 (b - rateCents "scheduled_post" * (10 : Int)))) :=
  record_usage_balance_never_negative false true "acme" "scheduled_post" 10
    "2026-10-12T09:00:00" "2026-10-01T00:00:00" "u1" ⟨[("acme", 300)], [], []⟩
    (by decide)

/-- C3: for a non-test tenant whose action is not covered by the plan and
whose balance is strictly below `rate * quantity`, `record_usage` fails with
the "Insufficient balance" result and performs no writes: the usage ledger
and the transaction log are untouched and the reported balance is
unchanged. -/
theorem record_usage_insufficient_balance_no_writes (pOk : Bool)
    (cid ty : String) (q : Nat) (nowTs ms fid : String) (st : PayState)
    (h1 : cid ≠ "test-company-id")
    (h2 : isCoveredByPlan none cid ty q st.usage ms = false)
    (h3 : balanceOf st cid < rateCents ty * (q : Int)) :
    (recordUsage false pOk cid ty q nowTs ms fid st).1.success = false
    ∧ (recordUsage false pOk cid ty q nowTs ms fid st).1.message = "Insufficient balance"
    ∧ (recordUsage false pOk cid ty q nowTs ms fid st).2.usage = st.usage
    ∧ (recordUsage false pOk cid ty q nowTs ms fid st).2.transactions = st.transactions
    ∧ balanceOf (recordUsage false pOk cid ty q nowTs ms fid st).2 cid = balanceOf st cid := by
  have hcsb : checkSufficientBalance false pOk cid ty q ms st
      = (false, (getCompanyBalance pOk cid st).2) := by
    unfold checkSufficientBalance
    rw [if_neg (by simp [h1]), if_neg (by simp [h2])]
    rw [getCompanyBalance_fst pOk cid st h1]
    rw [decide_eq_false (not_le.mpr h3)]
  have hru : recordUsage false pOk cid ty q nowTs ms fid st
      = (⟨false, "Insufficient balance", none⟩, (getCompanyBalance pOk cid st).2) := by
    unfold recordUsage
    rw [if_neg (by simp [h1]), hcsb]
    unfold recordUsageAfterCheck
    rw [if_pos rfl]
  rw [hru]
  exact ⟨rfl, rfl, getCompanyBalance_usage pOk cid st,
    getCompanyBalance_transactions pOk cid st,
    getCompanyBalance_balanceOf pOk cid st h1⟩

/-- C3 witness: a fresh tenant with no balance document (balance 0.00)
charged one post (rate $0.50). -/
theorem record_usage_insufficient_balance_no_writes_witness :
    (recordUsage false true "acme" "post" 1 "2026-10-12T09:00:00"
      "2026-10-01T00:00:00" "u1" ⟨[], [], []⟩).1.success = false
    ∧ (recordUsage false true "acme" "post" 1 "2026-10-12T09:00:00"
      "2026-10-01T00:00:00" "u1" ⟨[], [], []⟩).1.message = "Insufficient balance"
    ∧ (recordUsage false true "acme" "post" 1 "2026-10-12T09:00:00"
      "2026-10-01T00:00:00" "u1" ⟨[], [], []⟩).2.usage = []
    ∧ (recordUsage false true "acme" "post" 1 "2026-10-12T09:00:00"
      "2026-10-01T00:00:00" "u1" ⟨[], [], []⟩).2.transactions = []
    ∧ balanceOf (recordUsage false true "acme" "post" 1 "2026-10-12T09:00:00"
      "2026-10-01T00:00:00" "u1" ⟨[], [], []⟩).2 "acme" = balanceOf ⟨[], [], []⟩ "acme" :=
  record_usage_insufficient_balance_no_writes true "acme" "post" 1
    "2026-10-12T09:00:00" "2026-10-01T00:00:00" "u1" ⟨[], [], []⟩
    (by decide) (by decide) (by decide)

/-- C10: for the hard-coded test company id or when the `TEST_ACCOUNT` flag
is set, `record_usage` always succeeds with no balance check and no balance
or transaction mutation; with a working store it records a zero-amount
`test_account` ledger entry, and even a failing write still reports success
(with a null id); and `_get_company_balance` reports a fixed $100.00 for the
test company id. -/
theorem test_account_bypasses_billing (tA pOk : Bool) (cid ty : String)
    (q : Nat) (nowTs ms fid : String) (st : PayState)
    (h : cid = "test-company-id" ∨ tA = true) :
    (recordUsage tA pOk cid ty q nowTs ms fid st).1.success = true
    ∧ (recordUsage tA pOk cid ty q nowTs ms fid st).2.balances = st.balances
    ∧ (recordUsage tA pOk cid ty q nowTs ms fid st).2.transactions = st.transactions
    ∧ (pOk = true → (recordUsage tA pOk cid ty q nowTs ms fid st).2.usage
        = st.usage ++ [⟨cid, ty, q, 0, none, nowTs, "test_account"⟩]
        ∧ (recordUsage tA pOk cid ty q nowTs ms fid st).1.id = some fid)
    ∧ (pOk = false → (recordUsage tA pOk cid ty q nowTs ms fid st).2.usage = st.usage
        ∧ (recordUsage tA pOk cid ty q nowTs ms fid st).1.id = none)
    ∧ (getCompanyBalance pOk "test-company-id" st).1 = 10000 := by
  unfold recordUsage
  rw [if_pos h]
  cases pOk <;> simp [getCompanyBalance]

/-- C10 witness: the test company, with a stored zero balance, still posts
successfully and reports the fixed $100.00 balance. -/
theorem test_account_bypasses_billing_witness :
    (recordUsage false true "test-company-id" "post" 1 "2026-10-12T09:00:00"
      "2026-10-01T00:00:00" "u1" ⟨[("test-company-id", 0)], [], []⟩).1.success = true
    ∧ (recordUsage false true "test-company-id" "post" 1 "2026-10-12T09:00:00"
      "2026-10-01T00:00:00" "u1" ⟨[("test-company-id", 0)], [], []⟩).2.balances
        = [("test-company-id", 0)]
    ∧ (getCompanyBalance true "test-company-id"
        ⟨[("test-company-id", 0)], [], []⟩).1 = 10000 :=
  ⟨(test_account_bypasses_billing false true "test-company-id" "post" 1
      "2026-10-12T09:00:00" "2026-10-01T00:00:00" "u1"
      ⟨[("test-company-id", 0)], [], []⟩ (Or.inl rfl)).1,
   (test_account_bypasses_billing false true "test-company-id" "post" 1
      "2026-10-12T09:00:00" "2026-10-01T00:00:00" "u1"
      ⟨[("test-company-id", 0)], [], []⟩ (Or.inl rfl)).2.1,
   (test_account_bypasses_billing false true "test-company-id" "post" 1
      "2026-10-12T09:00:00" "2026-10-01T00:00:00" "u1"
      ⟨[("test-company-id", 0)], [], []⟩ (Or.inl rfl)).2.2.2.2.2⟩

/-- C1: with the plan the source actually passes — `None`, because
`record_usage` and `_check_sufficient_balance` call
`_is_covered_by_plan(company_id, None, ...)` — a starter-plan tenant with 49
posts this month is NOT covered (the empty `plans.get(None, {})` makes the
allowance 0), so `record_usage` takes the debit path: it succeeds only by
charging $0.50 from the balance ($10.00 → $9.50) and the written ledger
entry has no `plan_covered=true` mark.  Had the tenant's actual plan id been
passed, `_is_covered_by_plan` would have returned `True` (49 + 1 ≤ 50), as
the first conjunct shows. -/
theorem record_usage_ignores_plan_allowance :
    isCoveredByPlan (some "starter") "acme" "post" 1 starterState.usage
      "2026-10-01T00:00:00" = true
    ∧ isCoveredByPlan none "acme" "post" 1 starterState.usage
      "2026-10-01T00:00:00" = false
    ∧ (recordUsage false true "acme" "post" 1 "2026-10-12T09:00:00"
        "2026-10-01T00:00:00" "u50" starterState).1.success = true
    ∧ balanceOf (recordUsage false true "acme" "post" 1 "2026-10-12T09:00:00"
        "2026-10-01T00:00:00" "u50" starterState).2 "acme" = 950
    ∧ ((recordUsage false true "acme" "post" 1 "2026-10-12T09:00:00"
        "2026-10-01T00:00:00" "u50" starterState).2.usage.getLast?).map
        (·.plan_covered) = some none
    ∧ (recordUsage false true "acme" "post" 1 "2026-10-12T09:00:00"
        "2026-10-01T00:00:00" "u50" starterState).2.transactions.length = 1 := by
  decide

/-! ## Claim theorems: scheduler -/

theorem addToSchedule_past_date (nowT target : Int) (e : ScheduleEntry)
    (st : SchedState) (hspec : e.schedule_time = .date target)
    (hpast : target - nowT ≤ 0) : addToSchedule nowT e st = st := by
  unfold addToSchedule
  rw [hspec]
  show (if target - nowT ≤ 0 then st
    else registerRecurrence e { st with jobs := st.jobs ++ [e.id] }) = st
  rw [if_pos hpast]

/-- C4 counterexample: a `date:` spec 1 hour in the past (target epoch 1000,
now 4600) is not rejected — `schedule_post` returns the schedule id, not an
error, and a ScheduleEntry is created and persisted with status
`scheduled`.  Only the timer registration is skipped. -/
theorem past_absolute_schedule_counterexample :
    (schedulePost true ["twitter"] "prod1" "twitter" "image" (.date 1000)
      (some "once") "2026-10-12T08:00:00" 1700000000 4600 ⟨false, none, none⟩
      ⟨[], [], []⟩).1 = "SCH_1_1700000000"
    ∧ (schedulePost true ["twitter"] "prod1" "twitter" "image" (.date 1000)
      (some "once") "2026-10-12T08:00:00" 1700000000 4600 ⟨false, none, none⟩
      ⟨[], [], []⟩).2.schedules.length = 1
    ∧ schedStatusOf (schedulePost true ["twitter"] "prod1" "twitter" "image"
      (.date 1000) (some "once") "2026-10-12T08:00:00" 1700000000 4600
      ⟨false, none, none⟩ ⟨[], [], []⟩).2 "SCH_1_1700000000" = some "scheduled"
    ∧ (schedulePost true ["twitter"] "prod1" "twitter" "image" (.date 1000)
      (some "once") "2026-10-12T08:00:00" 1700000000 4600 ⟨false, none, none⟩
      ⟨[], [], []⟩).2.jobs = [] := by
  decide

/-- C4 (amended): for a valid product and configured platform, an absolute
`date:` spec strictly in the past registers no timer job — the job can never
fire — but `schedule_post` still creates and persists a ScheduleEntry with
status `scheduled` and returns the generated schedule id instead of an
error. -/
theorem past_absolute_schedule_persists_entry_without_job
    (platforms : List String) (pid platform fmt : String) (recurrence : Option String)
    (created : String) (uT target nowT : Int) (pr : PostResult) (st : SchedState)
    (hplat : platforms.contains platform = true) (hpast : target < nowT) :
    (schedulePost true platforms pid platform fmt (.date target) recurrence
      created uT nowT pr st).1
      = "SCH_" ++ toString (st.schedules.length + 1) ++ "_" ++ toString uT
    ∧ (schedulePost true platforms pid platform fmt (.date target) recurrence
      created uT nowT pr st).2.jobs = st.jobs
    ∧ (schedulePost true platforms pid platform fmt (.date target) recurrence
      created uT nowT pr st).2.published = st.published
    ∧ (schedulePost true platforms pid platform fmt (.date target) recurrence
      created uT nowT pr st).2.schedules = st.schedules ++
        [("SCH_" ++ toString (st.schedules.length + 1) ++ "_" ++ toString uT,
          ⟨"SCH_" ++ toString (st.schedules.length + 1) ++ "_" ++ toString uT,
            pid, platform, fmt, .date target, recurrence, created, "scheduled",
            none, none, none⟩)] := by
  unfold schedulePost
  rw [if_neg (by simp), if_neg (by rw [hplat]; simp), if_neg (by simp)]
  rw [addToSchedule_past_date nowT target _ _ rfl (by omega)]
  exact ⟨rfl, rfl, rfl, rfl⟩

/-- C4 witness: the amended statement at the counterexample's concrete
input. -/
theorem past_absolute_schedule_persists_entry_without_job_witness :
    (schedulePost true ["twitter"] "prod1" "twitter" "image" (.date 1000)
      (some "once") "2026-10-12T08:00:00" 1700000000 4600 ⟨false, none, none⟩
      ⟨[], [], []⟩).1 = "SCH_" ++ toString (0 + 1) ++ "_" ++ toString (1700000000 : Int)
    ∧ (schedulePost true ["twitter"] "prod1" "twitter" "image" (.date 1000)
      (some "once") "2026-10-12T08:00:00" 1700000000 4600 ⟨false, none, none⟩
      ⟨[], [], []⟩).2.jobs = []
    ∧ (schedulePost true ["twitter"] "prod1" "twitter" "image" (.date 1000)
      (some "once") "2026-10-12T08:00:00" 1700000000 4600 ⟨false, none, none⟩
      ⟨[], [], []⟩).2.published = []
    ∧ (schedulePost true ["twitter"] "prod1" "twitter" "image" (.date 1000)
      (some "once") "2026-10-12T08:00:00" 1700000000 4600 ⟨false, none, none⟩
      ⟨[], [], []⟩).2.schedules = [] ++
        [("SCH_" ++ toString (0 + 1) ++ "_" ++ toString (1700000000 : Int),
          ⟨"SCH_" ++ toString (0 + 1) ++ "_" ++ toString (1700000000 : Int),
            "prod1", "twitter", "image", .date 1000, some "once",
            "2026-10-12T08:00:00", "scheduled", none, none, none⟩)] :=
  past_absolute_schedule_persists_entry_without_job ["twitter"] "prod1" "twitter"
    "image" (some "once") "2026-10-12T08:00:00" 1700000000 1000 4600
    ⟨false, none, none⟩ ⟨[], [], []⟩ (by decide) (by decide)

/-- C5 counterexample: after `cancel_schedule` succeeds on `schedEntryEx`
(its status becomes `cancelled`), a firing of the still-registered timer job
runs the posting pipeline anyway — `create_post` is invoked (the publish log
grows) and the entry is even flipped to `completed` — because the job body
contains no `status == scheduled` check. -/
theorem cancelled_entry_still_publishes_counterexample :
    (cancelSchedule "SCH_1_100" schedStateEx).1 = true
    ∧ schedStatusOf (cancelSchedule "SCH_1_100" schedStateEx).2 "SCH_1_100"
        = some "cancelled"
    ∧ (runJob "SCH_1_100" ⟨true, some "tw42", none⟩ "2026-10-02T09:00:00"
        (cancelSchedule "SCH_1_100" schedStateEx).2).published = ["SCH_1_100"]
    ∧ schedStatusOf (runJob "SCH_1_100" ⟨true, some "tw42", none⟩
        "2026-10-02T09:00:00" (cancelSchedule "SCH_1_100" schedStateEx).2)
        "SCH_1_100" = some "completed" := by
  decide

/-- C5 (amended): `cancel_schedule` sets the entry's status to `cancelled`,
but the job body never checks the status before executing: whenever the
underlying timer fires for an entry — cancelled or not — the posting
pipeline runs (one more `create_post` invocation is logged) and the entry's
status is overwritten to `completed` or `failed` according to the post
result. -/
theorem job_body_runs_regardless_of_cancellation (sid : String)
    (pr : PostResult) (nowTs : String) (st : SchedState) (e : ScheduleEntry)
    (h1 : assocFind st.schedules sid = some e) (h2 : e.status = "cancelled") :
    (runJob sid pr nowTs st).published = st.published ++ [sid]
    ∧ schedStatusOf (runJob sid pr nowTs st) sid
        = some (if pr.success then "completed" else "failed") := by
  unfold runJob
  cases hs : pr.success
  · rw [if_neg (by simp [hs])]
    refine ⟨rfl, ?_⟩
    unfold schedStatusOf
    simp only []
    rw [assocFind_updateEntry, h1]
    simp [jobFailureUpdate, hs]
  · rw [if_pos (by simp [hs])]
    refine ⟨rfl, ?_⟩
    unfold schedStatusOf
    simp only []
    rw [assocFind_updateEntry, h1]
    simp [jobSuccessUpdate, hs]

/-- C5 witness: the amended statement at the cancelled concrete entry. -/
theorem job_body_runs_regardless_of_cancellation_witness :
    (runJob "SCH_1_100" ⟨true, some "tw42", none⟩ "2026-10-02T09:00:00"
      (cancelSchedule "SCH_1_100" schedStateEx).2).published
        = (cancelSchedule "SCH_1_100" schedStateEx).2.published ++ ["SCH_1_100"]
    ∧ schedStatusOf (runJob "SCH_1_100" ⟨true, some "tw42", none⟩
        "2026-10-02T09:00:00" (cancelSchedule "SCH_1_100" schedStateEx).2)
        "SCH_1_100" = some (if (true : Bool) then "completed" else "failed") :=
  job_body_runs_regardless_of_cancellation "SCH_1_100" ⟨true, some "tw42", none⟩
    "2026-10-02T09:00:00" (cancelSchedule "SCH_1_100" schedStateEx).2
    { schedEntryEx with status := "cancelled" } (by decide) (by decide)

/-- C8: cancelling an entry that is already in a terminal status
(`completed` or `cancelled`) still returns success, leaves every stored
field except the status untouched (the entry becomes exactly the old entry
with status `cancelled`), never puts it back to `scheduled`, and touches
neither the timer registry nor the publish log. -/
theorem cancel_terminal_schedule_success_no_reactivation (sid : String)
    (st : SchedState) (e : ScheduleEntry)
    (h1 : assocFind st.schedules sid = some e)
    (h2 : e.status = "completed" ∨ e.status = "cancelled") :
    (cancelSchedule sid st).1 = true
    ∧ assocFind (cancelSchedule sid st).2.schedules sid
        = some { e with status := "cancelled" }
    ∧ schedStatusOf (cancelSchedule sid st).2 sid ≠ some "scheduled"
    ∧ (cancelSchedule sid st).2.jobs = st.jobs
    ∧ (cancelSchedule sid st).2.published = st.published := by
  unfold cancelSchedule
  rw [h1]
  have hfind : assocFind (setSchedStatus st.schedules sid "cancelled") sid
      = some { e with status := "cancelled" } := by
    unfold setSchedStatus
    rw [assocFind_updateEntry, h1]
    rfl
  exact ⟨rfl, hfind, by simp [schedStatusOf, hfind], rfl, rfl⟩

/-- C8 witness: cancelling an already-completed entry. -/
theorem cancel_terminal_schedule_success_no_reactivation_witness :
    (cancelSchedule "SCH_1_100"
      ⟨[("SCH_1_100", { schedEntryEx with status := "completed" })], [], []⟩).1 = true
    ∧ assocFind (cancelSchedule "SCH_1_100"
        ⟨[("SCH_1_100", { schedEntryEx with status := "completed" })], [], []⟩).2.schedules
        "SCH_1_100" = some { { schedEntryEx with status := "completed" } with
          status := "cancelled" }
    ∧ schedStatusOf (cancelSchedule "SCH_1_100"
        ⟨[("SCH_1_100", { schedEntryEx with status := "completed" })], [], []⟩).2
        "SCH_1_100" ≠ some "scheduled"
    ∧ (cancelSchedule "SCH_1_100"
        ⟨[("SCH_1_100", { schedEntryEx with status := "completed" })], [], []⟩).2.jobs = []
    ∧ (cancelSchedule "SCH_1_100"
        ⟨[("SCH_1_100", { schedEntryEx with status := "completed" })], [], []⟩).2.published
        = [] :=
  cancel_terminal_schedule_success_no_reactivation "SCH_1_100"
    ⟨[("SCH_1_100", { schedEntryEx with status := "completed" })], [], []⟩
    { schedEntryEx with status := "completed" } (by decide) (Or.inl rfl)
